import Mathlib

/-!
Shallow embedding of `src/include/opaque/opaque.h` (namespace `opaq`): the
verified-base capability `IPrivate` and the owning pointer `PrivateAutoPtr`.

Heap model: addresses are natural numbers; the null pointer is `none` of
`Option Nat`.  An `Env` records, per address, the bytes the sentinel field
`_privateInstVerification` holds and how many times `delete` has run on that
address.  `delete ip` (through the virtual destructor `~IPrivate`) bumps the
destruction counter and writes nothing to the sentinel field, since the
destructor body is empty.  The checked-build assertion in `reset` is modelled
by returning `none` (the process aborts instead of returning).  The
`OPAQ_DEBUG` build switch is the `checked : Bool` parameter: when it is
`false` the assertion is compiled out and `delete` runs unconditionally.
-/

namespace Opaq

/-- Fixed magic constant `OPAQ_IPRIVATE_VERIFICATION = 0xBEEFDEAD` written by
the `IPrivate` constructor into the sentinel field in checked builds. -/
def OPAQ_IPRIVATE_VERIFICATION : Nat := 0xBEEFDEAD

/-- The heap as the model sees it: per-address contents of the sentinel field
and a per-address counter of how many times that address has been deleted. -/
structure Env where
  sentinel : Nat → Nat
  destroyCount : Nat → Nat

/-- The `IPrivate` constructor: `IPrivate() : _privateInstVerification(OPAQ_IPRIVATE_VERIFICATION)`,
writing the magic sentinel into the object at `addr` (checked builds). -/
def constructIPrivate (env : Env) (addr : Nat) : Env :=
  { env with
    sentinel := fun a => if a = addr then OPAQ_IPRIVATE_VERIFICATION else env.sentinel a }

/-- `delete ip` on the object at `addr`: the destruction counter of `addr`
increases by one; the empty `~IPrivate` body writes nothing else. -/
def deleteInst (env : Env) (addr : Nat) : Env :=
  { env with
    destroyCount := fun a => if a = addr then env.destroyCount a + 1 else env.destroyCount a }

/-- `PrivateAutoPtr<T>`: its one data member `T *ptr`.  The constructor
`PrivateAutoPtr(T *p = 0) : ptr(p) {}` is the anonymous `mk`. -/
structure PrivateAutoPtr where
  ptr : Option Nat

/-- `T *get() const { return ptr; }` -/
def PrivateAutoPtr.get (o : PrivateAutoPtr) : Option Nat :=
  o.ptr

/-- `T const *getConst() const { return ptr; }` -/
def PrivateAutoPtr.getConst (o : PrivateAutoPtr) : Option Nat :=
  o.ptr

/-- `bool isNull() const { return !ptr; }` -/
def PrivateAutoPtr.isNull (o : PrivateAutoPtr) : Bool :=
  o.ptr.isNone

/-- `void reset(T *p = 0)`: views the held pointer as `IPrivate *`; when it is
non-null, asserts (checked builds) that its sentinel equals the magic constant
and deletes it; finally stores `p`.  `none` is the assertion abort. -/
def PrivateAutoPtr.reset (checked : Bool) (o : PrivateAutoPtr) (env : Env)
    (p : Option Nat) : Option (PrivateAutoPtr × Env) :=
  match o.ptr with
  | none => some (PrivateAutoPtr.mk p, env)
  | some a =>
      if checked && !(env.sentinel a == OPAQ_IPRIVATE_VERIFICATION) then
        none
      else
        some (PrivateAutoPtr.mk p, deleteInst env a)

/-- `~PrivateAutoPtr() { reset(); }` — the destructor, also run at scope
exit; `reset()` uses the default argument `p = 0`. -/
def PrivateAutoPtr.destruct (checked : Bool) (o : PrivateAutoPtr) (env : Env) :
    Option (PrivateAutoPtr × Env) :=
  PrivateAutoPtr.reset checked o env none

/-- `T *release() { T *p = ptr; ptr = 0; return p; }` — returns the held
pointer and the pointer object with its state cleared to null. -/
def PrivateAutoPtr.release (o : PrivateAutoPtr) : Option Nat × PrivateAutoPtr :=
  (o.ptr, PrivateAutoPtr.mk none)

/-- `void swap(PrivateAutoPtr &other) { std::swap(ptr, other.ptr); }` —
returns the two pointer objects after the exchange. -/
def PrivateAutoPtr.swap (o other : PrivateAutoPtr) :
    PrivateAutoPtr × PrivateAutoPtr :=
  (PrivateAutoPtr.mk other.ptr, PrivateAutoPtr.mk o.ptr)

/-- `bool isValid() const` (checked builds): non-null and the sentinel read
through `IPrivate` equals the magic constant. -/
def PrivateAutoPtr.isValid (o : PrivateAutoPtr) (env : Env) : Bool :=
  match o.ptr with
  | none => false
  | some a => env.sentinel a == OPAQ_IPRIVATE_VERIFICATION

/-- An operation a client may apply to a live owning pointer: an explicit
`reset(p)`, or the destructor (explicit call or scope exit). -/
inductive Op where
  | opReset : Option Nat → Op
  | opDestruct : Op
deriving DecidableEq

/-- One operation applied to the owning pointer and the heap. -/
def step (checked : Bool) (o : PrivateAutoPtr) (env : Env) :
    Op → Option (PrivateAutoPtr × Env)
  | Op.opReset p => PrivateAutoPtr.reset checked o env p
  | Op.opDestruct => PrivateAutoPtr.destruct checked o env

/-- A sequence of operations, aborting at the first assertion failure. -/
def runOps (checked : Bool) :
    List Op → PrivateAutoPtr → Env → Option (PrivateAutoPtr × Env)
  | [], o, env => some (o, env)
  | op :: rest, o, env =>
      match step checked o env op with
      | none => none
      | some s => runOps checked rest s.1 s.2

/-- The operation never hands address `a` back to the pointer: client code
that does not re-wrap a pointer it no longer owns. -/
def avoids (a : Nat) : Op → Prop
  | Op.opReset p => p ≠ some a
  | Op.opDestruct => True

/-- Heap whose every address carries the magic sentinel and a zero
destruction counter. -/
def env0 : Env :=
  { sentinel := fun _ => OPAQ_IPRIVATE_VERIFICATION, destroyCount := fun _ => 0 }

/-- Heap whose every address carries a corrupted sentinel. -/
def envBad : Env :=
  { sentinel := fun _ => 0, destroyCount := fun _ => 0 }

/-! Unfolding lemmas for `reset` and `runOps`. -/

theorem reset_none_ptr (checked : Bool) (env : Env) (p : Option Nat) :
    PrivateAutoPtr.reset checked (PrivateAutoPtr.mk none) env p =
      some (PrivateAutoPtr.mk p, env) := rfl

theorem reset_some_ptr (checked : Bool) (env : Env) (p : Option Nat) (a : Nat) :
    PrivateAutoPtr.reset checked (PrivateAutoPtr.mk (some a)) env p =
      if checked && !(env.sentinel a == OPAQ_IPRIVATE_VERIFICATION) then none
      else some (PrivateAutoPtr.mk p, deleteInst env a) := rfl

theorem runOps_cons (checked : Bool) (op : Op) (rest : List Op)
    (o : PrivateAutoPtr) (env : Env) :
    runOps checked (op :: rest) o env =
      match step checked o env op with
      | none => none
      | some s => runOps checked rest s.1 s.2 := rfl

/-- A completed `reset` stores `p`; the destruction counter of an address the
pointer did not hold is unchanged. -/
theorem reset_not_held (checked : Bool) (a : Nat) (o : PrivateAutoPtr)
    (env : Env) (p : Option Nat) (o₂ : PrivateAutoPtr) (env₂ : Env)
    (hne : o.ptr ≠ some a)
    (h : PrivateAutoPtr.reset checked o env p = some (o₂, env₂)) :
    o₂.ptr = p ∧ env₂.destroyCount a = env.destroyCount a := by
  obtain ⟨optr⟩ := o
  cases optr with
  | none =>
      rw [reset_none_ptr] at h
      simp only [Option.some.injEq, Prod.mk.injEq] at h
      obtain ⟨rfl, rfl⟩ := h
      exact ⟨rfl, rfl⟩
  | some b =>
      have hba : b ≠ a := fun hb => hne (by rw [hb])
      rw [reset_some_ptr] at h
      by_cases hc : (checked && !(env.sentinel b == OPAQ_IPRIVATE_VERIFICATION)) = true
      · rw [if_pos hc] at h
        exact Option.noConfusion h
      · rw [if_neg hc] at h
        simp only [Option.some.injEq, Prod.mk.injEq] at h
        obtain ⟨rfl, rfl⟩ := h
        refine ⟨rfl, ?_⟩
        simp [deleteInst, Ne.symm hba]

/-- A completed `reset` on a pointer holding `a` stores `p` and bumps the
destruction counter of `a` by exactly one. -/
theorem reset_held (checked : Bool) (a : Nat) (o : PrivateAutoPtr)
    (env : Env) (p : Option Nat) (o₂ : PrivateAutoPtr) (env₂ : Env)
    (h0 : o.ptr = some a)
    (h : PrivateAutoPtr.reset checked o env p = some (o₂, env₂)) :
    o₂.ptr = p ∧ env₂.destroyCount a = env.destroyCount a + 1 := by
  obtain ⟨optr⟩ := o
  have h0x : optr = some a := h0
  subst h0x
  rw [reset_some_ptr] at h
  by_cases hc : (checked && !(env.sentinel a == OPAQ_IPRIVATE_VERIFICATION)) = true
  · rw [if_pos hc] at h
    exact Option.noConfusion h
  · rw [if_neg hc] at h
    simp only [Option.some.injEq, Prod.mk.injEq] at h
    obtain ⟨rfl, rfl⟩ := h
    exact ⟨rfl, by simp [deleteInst]⟩

/-- One completed operation starting from a pointer not holding `a` leaves the
destruction counter of `a` unchanged and still does not hold `a`. -/
theorem step_not_held (checked : Bool) (a : Nat) (o : PrivateAutoPtr)
    (env : Env) (op : Op) (o₂ : PrivateAutoPtr) (env₂ : Env)
    (hne : o.ptr ≠ some a) (hav : avoids a op)
    (h : step checked o env op = some (o₂, env₂)) :
    o₂.ptr ≠ some a ∧ env₂.destroyCount a = env.destroyCount a := by
  cases op with
  | opReset p =>
      obtain ⟨hp, hd⟩ := reset_not_held checked a o env p o₂ env₂ hne h
      exact ⟨by rw [hp]; exact hav, hd⟩
  | opDestruct =>
      obtain ⟨hp, hd⟩ := reset_not_held checked a o env none o₂ env₂ hne h
      exact ⟨by rw [hp]; exact fun hx => Option.noConfusion hx, hd⟩

/-- One completed operation starting from a pointer holding `a`, when the
operation does not hand `a` back, destroys `a` exactly once and afterwards the
pointer no longer holds `a`. -/
theorem step_held (checked : Bool) (a : Nat) (o : PrivateAutoPtr)
    (env : Env) (op : Op) (o₂ : PrivateAutoPtr) (env₂ : Env)
    (h0 : o.ptr = some a) (hav : avoids a op)
    (h : step checked o env op = some (o₂, env₂)) :
    o₂.ptr ≠ some a ∧ env₂.destroyCount a = env.destroyCount a + 1 := by
  cases op with
  | opReset p =>
      obtain ⟨hp, hd⟩ := reset_held checked a o env p o₂ env₂ h0 h
      exact ⟨by rw [hp]; exact hav, hd⟩
  | opDestruct =>
      obtain ⟨hp, hd⟩ := reset_held checked a o env none o₂ env₂ h0 h
      exact ⟨by rw [hp]; exact fun hx => Option.noConfusion hx, hd⟩

/-- A completed sequence of operations that never holds address `a` and never
hands it back leaves the destruction counter of `a` unchanged. -/
theorem runOps_not_held (checked : Bool) (a : Nat) :
    ∀ (ops : List Op) (o : PrivateAutoPtr) (env : Env)
      (o₂ : PrivateAutoPtr) (env₂ : Env),
      o.ptr ≠ some a → (∀ op ∈ ops, avoids a op) →
      runOps checked ops o env = some (o₂, env₂) →
      env₂.destroyCount a = env.destroyCount a := by
  intro ops
  induction ops with
  | nil =>
      intro o env o₂ env₂ _ _ h
      simp only [runOps, Option.some.injEq, Prod.mk.injEq] at h
      obtain ⟨_, rfl⟩ := h
      rfl
  | cons op rest ih =>
      intro o env o₂ env₂ hne havoid hrun
      rw [runOps_cons] at hrun
      cases hstep : step checked o env op with
      | none =>
          rw [hstep] at hrun
          exact Option.noConfusion hrun
      | some s =>
          obtain ⟨o1, env1⟩ := s
          rw [hstep] at hrun
          obtain ⟨hp, hd⟩ := step_not_held checked a o env op o1 env1 hne
            (havoid op (List.mem_cons_self op rest)) hstep
          have hrest := ih o1 env1 o₂ env₂ hp
            (fun q hq => havoid q (List.mem_cons_of_mem op hq)) hrun
          rw [hrest, hd]

/-- A completed `reset` never writes the sentinel field of any address. -/
theorem reset_sentinel (checked : Bool) (o : PrivateAutoPtr) (env : Env)
    (p : Option Nat) (o₂ : PrivateAutoPtr) (env₂ : Env)
    (h : PrivateAutoPtr.reset checked o env p = some (o₂, env₂)) :
    ∀ b, env₂.sentinel b = env.sentinel b := by
  obtain ⟨optr⟩ := o
  cases optr with
  | none =>
      rw [reset_none_ptr] at h
      simp only [Option.some.injEq, Prod.mk.injEq] at h
      obtain ⟨_, rfl⟩ := h
      intro b
      rfl
  | some a =>
      rw [reset_some_ptr] at h
      by_cases hc : (checked && !(env.sentinel a == OPAQ_IPRIVATE_VERIFICATION)) = true
      · rw [if_pos hc] at h
        exact Option.noConfusion h
      · rw [if_neg hc] at h
        simp only [Option.some.injEq, Prod.mk.injEq] at h
        obtain ⟨_, rfl⟩ := h
        intro b
        rfl

/-- A completed sequence of operations never writes any sentinel field. -/
theorem runOps_sentinel (checked : Bool) :
    ∀ (ops : List Op) (o : PrivateAutoPtr) (env : Env)
      (o₂ : PrivateAutoPtr) (env₂ : Env),
      runOps checked ops o env = some (o₂, env₂) →
      ∀ b, env₂.sentinel b = env.sentinel b := by
  intro ops
  induction ops with
  | nil =>
      intro o env o₂ env₂ h
      simp only [runOps, Option.some.injEq, Prod.mk.injEq] at h
      obtain ⟨_, rfl⟩ := h
      intro b
      rfl
  | cons op rest ih =>
      intro o env o₂ env₂ hrun
      rw [runOps_cons] at hrun
      cases hstep : step checked o env op with
      | none =>
          rw [hstep] at hrun
          exact Option.noConfusion hrun
      | some s =>
          obtain ⟨o1, env1⟩ := s
          rw [hstep] at hrun
          have hstep2 : PrivateAutoPtr.reset checked o env
              (match op with | Op.opReset p => p | Op.opDestruct => none) =
              some (o1, env1) := by
            cases op with
            | opReset p => exact hstep
            | opDestruct => exact hstep
          intro b
          rw [ih o1 env1 o₂ env₂ hrun b,
            reset_sentinel checked o env _ o1 env1 hstep2 b]

/-- A completed `reset` leaves the pointer holding exactly `p`. -/
theorem reset_result_ptr (checked : Bool) (o : PrivateAutoPtr) (env : Env)
    (p : Option Nat) (o₂ : PrivateAutoPtr) (env₂ : Env)
    (h : PrivateAutoPtr.reset checked o env p = some (o₂, env₂)) :
    o₂.ptr = p := by
  obtain ⟨optr⟩ := o
  cases optr with
  | none =>
      rw [reset_none_ptr] at h
      simp only [Option.some.injEq, Prod.mk.injEq] at h
      obtain ⟨rfl, _⟩ := h
      rfl
  | some a =>
      rw [reset_some_ptr] at h
      by_cases hc : (checked && !(env.sentinel a == OPAQ_IPRIVATE_VERIFICATION)) = true
      · rw [if_pos hc] at h
        exact Option.noConfusion h
      · rw [if_neg hc] at h
        simp only [Option.some.injEq, Prod.mk.injEq] at h
        obtain ⟨rfl, _⟩ := h
        rfl

/-- C1: after `O.Reset(newInstance)` returns, `O` holds exactly `newInstance`
(`get` returns it), and if `O` held a non-null instance before the call, that
instance's destruction counter increased by exactly one; a null prior holding
leaves the heap untouched. -/
theorem reset_owns_new_and_destroys_prior (checked : Bool) (o : PrivateAutoPtr)
    (env : Env) (p : Option Nat) (o₂ : PrivateAutoPtr) (env₂ : Env)
    (h : PrivateAutoPtr.reset checked o env p = some (o₂, env₂)) :
    o₂.get = p ∧
    (∀ a, o.ptr = some a → env₂.destroyCount a = env.destroyCount a + 1) ∧
    (o.ptr = none → env₂ = env) := by
  obtain ⟨optr⟩ := o
  cases optr with
  | none =>
      rw [reset_none_ptr] at h
      simp only [Option.some.injEq, Prod.mk.injEq] at h
      obtain ⟨rfl, rfl⟩ := h
      refine ⟨rfl, ?_, fun _ => rfl⟩
      intro a ha
      exact Option.noConfusion (ha : (none : Option Nat) = some a)
  | some b =>
      rw [reset_some_ptr] at h
      by_cases hc : (checked && !(env.sentinel b == OPAQ_IPRIVATE_VERIFICATION)) = true
      · rw [if_pos hc] at h
        exact Option.noConfusion h
      · rw [if_neg hc] at h
        simp only [Option.some.injEq, Prod.mk.injEq] at h
        obtain ⟨rfl, rfl⟩ := h
        refine ⟨rfl, ?_, ?_⟩
        · intro a ha
          have hab : b = a := Option.some.inj (ha : (some b : Option Nat) = some a)
          subst hab
          simp [deleteInst]
        · intro hx
          exact Option.noConfusion (hx : (some b : Option Nat) = none)

/-- C1 witness: resetting a pointer holding address 1 to address 2 stores 2
and destroys address 1 exactly once. -/
theorem reset_owns_witness :
    (PrivateAutoPtr.mk (some 2)).get = some 2 ∧
    (deleteInst env0 1).destroyCount 1 = env0.destroyCount 1 + 1 :=
  ⟨(reset_owns_new_and_destroys_prior true (PrivateAutoPtr.mk (some 1)) env0
      (some 2) (PrivateAutoPtr.mk (some 2)) (deleteInst env0 1) rfl).1,
   (reset_owns_new_and_destroys_prior true (PrivateAutoPtr.mk (some 1)) env0
      (some 2) (PrivateAutoPtr.mk (some 2)) (deleteInst env0 1) rfl).2.1 1 rfl⟩

/-- C2: the automatic destructor is `reset()` with the default null argument,
and across any completed sequence of resets and destructor invocations that
never hands the held address back, the held instance is destroyed exactly
once — never zero times, never more. -/
theorem destruct_once (checked : Bool) (a : Nat) (ops : List Op)
    (o : PrivateAutoPtr) (env : Env) (o₂ : PrivateAutoPtr) (env₂ : Env)
    (h0 : o.ptr = some a)
    (havoid : ∀ op ∈ ops, avoids a op)
    (hlast : ops.getLast? = some Op.opDestruct)
    (hrun : runOps checked ops o env = some (o₂, env₂)) :
    PrivateAutoPtr.destruct checked o env = PrivateAutoPtr.reset checked o env none ∧
    env₂.destroyCount a = env.destroyCount a + 1 := by
  refine ⟨rfl, ?_⟩
  cases ops with
  | nil => simp at hlast
  | cons op rest =>
      rw [runOps_cons] at hrun
      cases hstep : step checked o env op with
      | none =>
          rw [hstep] at hrun
          exact Option.noConfusion hrun
      | some s =>
          obtain ⟨o1, env1⟩ := s
          rw [hstep] at hrun
          obtain ⟨hp, hd⟩ := step_held checked a o env op o1 env1 h0
            (havoid op (List.mem_cons_self op rest)) hstep
          have hrest := runOps_not_held checked a rest o1 env1 o₂ env₂ hp
            (fun q hq => havoid q (List.mem_cons_of_mem op hq)) hrun
          rw [hrest, hd]

/-- C2 witness: letting a pointer holding address 1 go out of scope destroys
address 1 exactly once, and the destructor is `reset(null)`. -/
theorem destruct_once_witness :
    PrivateAutoPtr.destruct true (PrivateAutoPtr.mk (some 1)) env0 =
      PrivateAutoPtr.reset true (PrivateAutoPtr.mk (some 1)) env0 none ∧
    (deleteInst env0 1).destroyCount 1 = env0.destroyCount 1 + 1 :=
  destruct_once true 1 [Op.opDestruct] (PrivateAutoPtr.mk (some 1)) env0
    (PrivateAutoPtr.mk none) (deleteInst env0 1) rfl
    (by
      intro op hop
      rw [List.mem_singleton] at hop
      subst hop
      trivial)
    rfl rfl

/-- C3: `release` on a pointer holding `x` returns exactly `x`, afterwards the
pointer is null, and its later destruction (scope exit) completes with the
heap untouched — `x` is not destroyed by the pointer. -/
theorem release_transfers (checked : Bool) (o : PrivateAutoPtr) (env : Env)
    (x : Nat) (h : o.ptr = some x) :
    (PrivateAutoPtr.release o).1 = some x ∧
    (PrivateAutoPtr.release o).2.isNull = true ∧
    PrivateAutoPtr.destruct checked (PrivateAutoPtr.release o).2 env =
      some ((PrivateAutoPtr.release o).2, env) := by
  refine ⟨?_, rfl, rfl⟩
  simpa [PrivateAutoPtr.release] using h

/-- C3 witness: releasing address 4 returns it, nulls the pointer, and scope
exit then leaves the heap unchanged. -/
theorem release_transfers_witness :
    (PrivateAutoPtr.release (PrivateAutoPtr.mk (some 4))).1 = some 4 ∧
    (PrivateAutoPtr.release (PrivateAutoPtr.mk (some 4))).2.isNull = true ∧
    PrivateAutoPtr.destruct true
        (PrivateAutoPtr.release (PrivateAutoPtr.mk (some 4))).2 env0 =
      some ((PrivateAutoPtr.release (PrivateAutoPtr.mk (some 4))).2, env0) :=
  release_transfers true (PrivateAutoPtr.mk (some 4)) env0 4 rfl

/-- C4: the `IPrivate` constructor writes the magic constant into the
sentinel field, and no owning-pointer operation (a single `reset` or any
completed sequence of resets and destructor calls) ever writes any sentinel
field, so every live object keeps its sentinel for its entire lifetime. -/
theorem sentinel_invariant (env : Env) (addr : Nat) :
    (constructIPrivate env addr).sentinel addr = OPAQ_IPRIVATE_VERIFICATION ∧
    (∀ checked o p o₂ env₂,
      PrivateAutoPtr.reset checked o env p = some (o₂, env₂) →
      ∀ b, env₂.sentinel b = env.sentinel b) ∧
    (∀ checked ops o o₂ env₂,
      runOps checked ops o env = some (o₂, env₂) →
      ∀ b, env₂.sentinel b = env.sentinel b) := by
  refine ⟨by simp [constructIPrivate], ?_, ?_⟩
  · intro checked o p o₂ env₂ h b
    exact reset_sentinel checked o env p o₂ env₂ h b
  · intro checked ops o o₂ env₂ h b
    exact runOps_sentinel checked ops o env o₂ env₂ h b

/-- C4 witness: constructing at address 7 sets its sentinel to the magic
constant, and a reset destroying address 1 writes no sentinel. -/
theorem sentinel_invariant_witness :
    (constructIPrivate env0 7).sentinel 7 = OPAQ_IPRIVATE_VERIFICATION ∧
    (deleteInst env0 1).sentinel 1 = env0.sentinel 1 :=
  ⟨(sentinel_invariant env0 7).1,
   (sentinel_invariant env0 7).2.1 true (PrivateAutoPtr.mk (some 1)) none
     (PrivateAutoPtr.mk none) (deleteInst env0 1) rfl 1⟩

/-- C5: in a checked build, `reset` (and the destructor, which is an implicit
reset) on a pointer holding an instance whose sentinel differs from the magic
constant aborts via the assertion instead of returning; when the pointer is
null or the sentinel is correct, `reset` completes normally. -/
theorem reset_assert_behavior (o : PrivateAutoPtr) (env : Env) (p : Option Nat) :
    (∀ a, o.ptr = some a → env.sentinel a ≠ OPAQ_IPRIVATE_VERIFICATION →
      PrivateAutoPtr.reset true o env p = none ∧
      PrivateAutoPtr.destruct true o env = none) ∧
    ((o.ptr = none ∨ ∃ a, o.ptr = some a ∧
        env.sentinel a = OPAQ_IPRIVATE_VERIFICATION) →
      (PrivateAutoPtr.reset true o env p).isSome = true) := by
  obtain ⟨optr⟩ := o
  constructor
  · intro a ha hbad
    have hax : optr = some a := ha
    subst hax
    have hb : (env.sentinel a == OPAQ_IPRIVATE_VERIFICATION) = false := by
      simp [hbad]
    refine ⟨?_, ?_⟩
    · rw [reset_some_ptr, hb]
      rfl
    · rw [PrivateAutoPtr.destruct, reset_some_ptr, hb]
      rfl
  · intro hok
    cases hok with
    | inl hnull =>
        have hax : optr = none := hnull
        subst hax
        rw [reset_none_ptr]
        rfl
    | inr hgood =>
        obtain ⟨a, ha, hs⟩ := hgood
        have hax : optr = some a := ha
        subst hax
        have hb : (env.sentinel a == OPAQ_IPRIVATE_VERIFICATION) = true := by
          simp [hs]
        rw [reset_some_ptr, hb]
        rfl

/-- C5 witness: with a corrupted sentinel at address 1 the checked reset
aborts; with a correct sentinel it completes. -/
theorem reset_assert_witness :
    PrivateAutoPtr.reset true (PrivateAutoPtr.mk (some 1)) envBad none = none ∧
    (PrivateAutoPtr.reset true (PrivateAutoPtr.mk (some 1)) env0 none).isSome = true :=
  ⟨((reset_assert_behavior (PrivateAutoPtr.mk (some 1)) envBad none).1 1 rfl
      (by decide)).1,
   (reset_assert_behavior (PrivateAutoPtr.mk (some 1)) env0 none).2
     (Or.inr ⟨1, rfl, rfl⟩)⟩

/-- C6: `swap` exchanges the held references of the two pointers — it touches
no heap, so no instance is constructed or destroyed — and applying it twice
restores both pointers exactly (involution). -/
theorem swap_exchanges_involutive (a b : PrivateAutoPtr) :
    (PrivateAutoPtr.swap a b).1.ptr = b.ptr ∧
    (PrivateAutoPtr.swap a b).2.ptr = a.ptr ∧
    PrivateAutoPtr.swap (PrivateAutoPtr.swap a b).1 (PrivateAutoPtr.swap a b).2 =
      (a, b) :=
  ⟨rfl, rfl, rfl⟩

/-- C6 witness: swapping pointers holding 1 and 2 exchanges them, and
swapping again restores them. -/
theorem swap_exchanges_witness :
    (PrivateAutoPtr.swap (PrivateAutoPtr.mk (some 1)) (PrivateAutoPtr.mk (some 2))).1.ptr =
      (PrivateAutoPtr.mk (some 2)).ptr ∧
    (PrivateAutoPtr.swap (PrivateAutoPtr.mk (some 1)) (PrivateAutoPtr.mk (some 2))).2.ptr =
      (PrivateAutoPtr.mk (some 1)).ptr ∧
    PrivateAutoPtr.swap
        (PrivateAutoPtr.swap (PrivateAutoPtr.mk (some 1)) (PrivateAutoPtr.mk (some 2))).1
        (PrivateAutoPtr.swap (PrivateAutoPtr.mk (some 1)) (PrivateAutoPtr.mk (some 2))).2 =
      (PrivateAutoPtr.mk (some 1), PrivateAutoPtr.mk (some 2)) :=
  swap_exchanges_involutive (PrivateAutoPtr.mk (some 1)) (PrivateAutoPtr.mk (some 2))

/-- C7: `isNull` is true directly after default construction (`p = 0`), after
a completed `reset(null)`, and after `release`; and `isNull` is true exactly
when the held reference is null. -/
theorem isNull_correct (checked : Bool) (o : PrivateAutoPtr) (env : Env) :
    PrivateAutoPtr.isNull (PrivateAutoPtr.mk none) = true ∧
    (∀ o₂ env₂, PrivateAutoPtr.reset checked o env none = some (o₂, env₂) →
      o₂.isNull = true) ∧
    (PrivateAutoPtr.release o).2.isNull = true ∧
    (o.isNull = true ↔ o.ptr = none) := by
  refine ⟨rfl, ?_, rfl, ?_⟩
  · intro o₂ env₂ h
    have hp := reset_result_ptr checked o env none o₂ env₂ h
    simp [PrivateAutoPtr.isNull, hp]
  · simp [PrivateAutoPtr.isNull, Option.isNone_iff_eq_none]

/-- C7 witness: the default-constructed pointer is null, a completed
`reset(null)` leaves the pointer null, release of address 3 leaves the
pointer null, and `isNull` of a pointer holding 3 matches holding none. -/
theorem isNull_correct_witness :
    PrivateAutoPtr.isNull (PrivateAutoPtr.mk none) = true ∧
    (PrivateAutoPtr.mk none).isNull = true ∧
    (PrivateAutoPtr.release (PrivateAutoPtr.mk (some 3))).2.isNull = true ∧
    ((PrivateAutoPtr.mk (some 3)).isNull = true ↔
      (PrivateAutoPtr.mk (some 3)).ptr = none) :=
  ⟨(isNull_correct true (PrivateAutoPtr.mk (some 3)) env0).1,
   (isNull_correct true (PrivateAutoPtr.mk (some 3)) env0).2.1
     (PrivateAutoPtr.mk none) (deleteInst env0 3) rfl,
   (isNull_correct true (PrivateAutoPtr.mk (some 3)) env0).2.2.1,
   (isNull_correct true (PrivateAutoPtr.mk (some 3)) env0).2.2.2⟩

/-- C8: construction performs no sentinel validation: it is a total function
of the supplied instance alone — it never consults the heap, so it succeeds
for a null, well-formed, or corrupted-sentinel instance alike (no assertion
can fire even in a checked build) — and the pointer then holds exactly that
instance. The unused heap argument records this independence. -/
theorem construct_no_validation (p : Option Nat) (_env : Env) :
    (PrivateAutoPtr.mk p).get = p ∧ (PrivateAutoPtr.mk p).ptr = p :=
  ⟨rfl, rfl⟩

/-- C8 witness: constructing over a heap whose every sentinel is corrupted
still succeeds and holds exactly the supplied instance. -/
theorem construct_no_validation_witness :
    (PrivateAutoPtr.mk (some 9)).get = some 9 ∧
    (PrivateAutoPtr.mk (some 9)).ptr = some 9 :=
  construct_no_validation (some 9) envBad

/-- C9: `reset(p)` with `p` equal to the currently held address first deletes
the held instance and then stores that same address: afterwards the pointer
is not null and `get` returns the address of the already-destroyed instance
(its destruction counter has increased). -/
theorem reset_self (checked : Bool) (o : PrivateAutoPtr) (env : Env) (a : Nat)
    (h : o.ptr = some a) (hs : env.sentinel a = OPAQ_IPRIVATE_VERIFICATION) :
    PrivateAutoPtr.reset checked o env (some a) =
      some (PrivateAutoPtr.mk (some a), deleteInst env a) ∧
    (PrivateAutoPtr.mk (some a)).isNull = false ∧
    (PrivateAutoPtr.mk (some a)).get = some a ∧
    (deleteInst env a).destroyCount a = env.destroyCount a + 1 := by
  obtain ⟨optr⟩ := o
  have hax : optr = some a := h
  subst hax
  have hb : (env.sentinel a == OPAQ_IPRIVATE_VERIFICATION) = true := by
    simp [hs]
  refine ⟨?_, rfl, rfl, by simp [deleteInst]⟩
  rw [reset_some_ptr, hb]
  cases checked <;> rfl

/-- C9 witness: self-reset at address 5 deletes the instance yet leaves the
pointer non-null, still returning address 5. -/
theorem reset_self_witness :
    PrivateAutoPtr.reset true (PrivateAutoPtr.mk (some 5)) env0 (some 5) =
      some (PrivateAutoPtr.mk (some 5), deleteInst env0 5) ∧
    (PrivateAutoPtr.mk (some 5)).isNull = false ∧
    (PrivateAutoPtr.mk (some 5)).get = some 5 ∧
    (deleteInst env0 5).destroyCount 5 = env0.destroyCount 5 + 1 :=
  reset_self true (PrivateAutoPtr.mk (some 5)) env0 5 rfl rfl

/-- C10: `release` performs no sentinel validation: even when the held
instance's sentinel is corrupted it returns the held reference and clears the
pointer to null, with no assertion able to fire (it never consults the
heap). -/
theorem release_no_validation (o : PrivateAutoPtr) (env : Env) (x : Nat)
    (h : o.ptr = some x)
    (_hbad : env.sentinel x ≠ OPAQ_IPRIVATE_VERIFICATION) :
    (PrivateAutoPtr.release o).1 = some x ∧
    (PrivateAutoPtr.release o).2.ptr = none ∧
    (PrivateAutoPtr.release o).2.isNull = true := by
  refine ⟨?_, rfl, rfl⟩
  simpa [PrivateAutoPtr.release] using h

/-- C10 witness: releasing address 6 whose sentinel is corrupted still
returns it and nulls the pointer. -/
theorem release_no_validation_witness :
    (PrivateAutoPtr.release (PrivateAutoPtr.mk (some 6))).1 = some 6 ∧
    (PrivateAutoPtr.release (PrivateAutoPtr.mk (some 6))).2.ptr = none ∧
    (PrivateAutoPtr.release (PrivateAutoPtr.mk (some 6))).2.isNull = true :=
  release_no_validation (PrivateAutoPtr.mk (some 6)) envBad 6 rfl (by decide)

end Opaq
